import Mathlib

/-!
Verification of the provider normalization / routing / fallback layer of the
agi-framework repository.

The JavaScript sources are embedded shallowly:

* `JSVal` models the dynamically-typed JSON-like values flowing through the
  normalizer (vendor responses are plain objects).  Property access on a
  nullish value throws a `TypeError`, which we model with `Except`.
* `UniversalProvider` (src/unnamed/part_003) is modelled with an explicit
  registry (association list, mirroring the insertion-ordered JS `Map`) and
  functions that additionally return the ordered trace of providers whose
  adapters were actually invoked.
* `ProviderManager` (src/GETTING_STARTED.md) is modelled likewise, with its
  routing rules, cost ledger and static price table (rationals stand in for
  JS numbers; all prices are exact decimal fractions).
-/

set_option autoImplicit false

namespace Agi

/-- String-keyed lookup in an insertion-ordered association list — the
lookup of a JS object property or `Map` key (first binding wins; keys are
unique in practice). -/
def slookup {β : Type} : List (String × β) → String → Option β
  | [], _ => none
  | (k, v) :: rest, key => if k = key then some v else slookup rest key

/-- A JavaScript value as it occurs in the provider layer: `undefined`,
`null`, booleans, numbers (all numeric values appearing here are integers),
strings, arrays and plain objects (insertion-ordered field lists). -/
inductive JSVal where
  | jsUndefined
  | jsNull
  | boolean (b : Bool)
  | num (n : Int)
  | str (s : String)
  | arr (elems : List JSVal)
  | obj (fields : List (String × JSVal))

/-- `undefined` and `null` are the two nullish values. -/
def JSVal.isNullish : JSVal → Bool
  | .jsUndefined => true
  | .jsNull => true
  | _ => false

/-- JS truthiness: `undefined`, `null`, `false`, `0` and `''` are falsy,
everything else (including every array and object) is truthy. -/
def JSVal.truthy : JSVal → Bool
  | .jsUndefined => false
  | .jsNull => false
  | .boolean b => b
  | .num n => n != 0
  | .str s => s != ""
  | .arr _ => true
  | .obj _ => true

/-- Non-throwing property lookup `v.k` on a value already known not to be
nullish: on an object it is field lookup (first binding wins, `undefined` if
absent); property access on primitives and arrays yields `undefined` for the
field names used by this code base. -/
def JSVal.getField : JSVal → String → JSVal
  | .obj fields, k => (slookup fields k).getD .jsUndefined
  | _, _ => .jsUndefined

/-- The errors that can propagate out of the provider layer:  `TypeError`s
thrown by property access on nullish values, the `Provider ... not found`
error of `getProvider`, a vendor adapter rejection, and the terminal
`All providers failed` error of `tryFallback`. -/
inductive JsError where
  | typeError (msg : String)
  | providerNotFound (name : String)
  | vendorFailure (msg : String)
  | allProvidersFailed
deriving DecidableEq

/-- Property access `v.k`: throws a `TypeError` when `v` is nullish. -/
def JSVal.member (v : JSVal) (k : String) : Except JsError JSVal :=
  if v.isNullish then .error (.typeError ("cannot read properties of nullish value (reading " ++ k ++ ")"))
  else .ok (v.getField k)

/-- Index access `v[i]`: throws a `TypeError` when `v` is nullish; on an
array it is element lookup (`undefined` out of range).  The sources never
index a primitive on this path, so primitives also yield `undefined`. -/
def JSVal.item (v : JSVal) (i : Nat) : Except JsError JSVal :=
  if v.isNullish then .error (.typeError "cannot index nullish value")
  else match v with
    | .arr elems => .ok (elems.getD i .jsUndefined)
    | _ => .ok (v.getField (toString i))

/-- Optional-chained property access `v?.k`: short-circuits to `undefined`
when `v` is nullish (and, chained, propagates that `undefined`). -/
def JSVal.optMember (v : JSVal) (k : String) : JSVal :=
  if v.isNullish then .jsUndefined else v.getField k

/-- JS `a || b`. -/
def jsOr (a b : JSVal) : JSVal :=
  if a.truthy then a else b

/-- JS `+` on the token-count path.  Both operands on that path are numbers
(`x || 0` of a numeric-or-absent usage field); the string/coercion cases of
JS `+` never arise there and are mapped to `undefined`. -/
def jsAdd : JSVal → JSVal → JSVal
  | .num a, .num b => .num (a + b)
  | _, _ => .jsUndefined

/-- `UniversalProvider.extractContent(response, provider)`:
vendor-specific text extraction with a generic `content`/`text` fallback for
unrecognized provider names. -/
def extractContent (response : JSVal) (providerName : String) : Except JsError JSVal :=
  if providerName = "anthropic" then do
    -- response.content[0]?.text || ''
    let c ← response.member "content"
    let c0 ← c.item 0
    pure (jsOr (c0.optMember "text") (.str ""))
  else if providerName = "openai" then do
    -- response.choices[0]?.message?.content || ''
    let ch ← response.member "choices"
    let c0 ← ch.item 0
    pure (jsOr ((c0.optMember "message").optMember "content") (.str ""))
  else if providerName = "google" then do
    -- response.candidates[0]?.content?.parts[0]?.text || ''
    let cs ← response.member "candidates"
    let c0 ← cs.item 0
    if c0.isNullish then pure (jsOr .jsUndefined (.str ""))
    else
      let content := c0.getField "content"
      if content.isNullish then pure (jsOr .jsUndefined (.str ""))
      else do
        let p0 ← (content.getField "parts").item 0
        pure (jsOr (p0.optMember "text") (.str ""))
  else do
    -- response.content || response.text || ''
    let c ← response.member "content"
    if c.truthy then pure c
    else do
      let t ← response.member "text"
      pure (jsOr t (.str ""))

/-- `UniversalProvider.extractInputTokens(response, provider)`. -/
def extractInputTokens (response : JSVal) (providerName : String) : Except JsError JSVal :=
  if providerName = "anthropic" then do
    -- response.usage?.input_tokens || 0
    let u ← response.member "usage"
    pure (jsOr (u.optMember "input_tokens") (.num 0))
  else if providerName = "openai" then do
    let u ← response.member "usage"
    pure (jsOr (u.optMember "prompt_tokens") (.num 0))
  else if providerName = "google" then do
    let u ← response.member "usageMetadata"
    pure (jsOr (u.optMember "promptTokenCount") (.num 0))
  else pure (.num 0)

/-- `UniversalProvider.extractOutputTokens(response, provider)`. -/
def extractOutputTokens (response : JSVal) (providerName : String) : Except JsError JSVal :=
  if providerName = "anthropic" then do
    let u ← response.member "usage"
    pure (jsOr (u.optMember "output_tokens") (.num 0))
  else if providerName = "openai" then do
    let u ← response.member "usage"
    pure (jsOr (u.optMember "completion_tokens") (.num 0))
  else if providerName = "google" then do
    let u ← response.member "usageMetadata"
    pure (jsOr (u.optMember "candidatesTokenCount") (.num 0))
  else pure (.num 0)

/-- `UniversalProvider.extractTotalTokens(response, provider)`: always the
sum of the extracted input and output counts; no vendor-reported total field
is consulted. -/
def extractTotalTokens (response : JSVal) (providerName : String) : Except JsError JSVal := do
  let i ← extractInputTokens response providerName
  let o ← extractOutputTokens response providerName
  pure (jsAdd i o)

/-- `UniversalProvider.extractFinishReason(response, provider)`: the raw
vendor finish value for the three recognized vendors, `'unknown'` otherwise. -/
def extractFinishReason (response : JSVal) (providerName : String) : Except JsError JSVal :=
  if providerName = "anthropic" then
    response.member "stop_reason"
  else if providerName = "openai" then do
    let ch ← response.member "choices"
    let c0 ← ch.item 0
    pure (c0.optMember "finish_reason")
  else if providerName = "google" then do
    let cs ← response.member "candidates"
    let c0 ← cs.item 0
    pure (c0.optMember "finishReason")
  else pure (.str "unknown")

/-- The `usage` sub-object of the uniform response. -/
structure UsageInfo where
  inputTokens : JSVal
  outputTokens : JSVal
  totalTokens : JSVal

/-- The uniform response shape produced by `normalizeResponse`. -/
structure NormalizedResponse where
  content : JSVal
  model : JSVal
  provider : String
  usage : UsageInfo
  finishReason : JSVal

/-- `UniversalProvider.normalizeResponse(response, provider)`, with the
field initializers evaluated in source order. -/
def normalizeResponse (response : JSVal) (providerName : String) :
    Except JsError NormalizedResponse := do
  let content ← extractContent response providerName
  let model ← response.member "model"
  let inputTokens ← extractInputTokens response providerName
  let outputTokens ← extractOutputTokens response providerName
  let totalTokens ← extractTotalTokens response providerName
  let finishReason ← extractFinishReason response providerName
  pure { content := content, model := model, provider := providerName,
         usage := { inputTokens := inputTokens, outputTokens := outputTokens,
                    totalTokens := totalTokens },
         finishReason := finishReason }

/-! ## Uniform requests and request normalization (src/unnamed/part_003) -/

/-- A message of the vendor-agnostic request shape. -/
structure Message where
  role : String
  content : String
deriving DecidableEq

/-- The vendor-agnostic `CompletionRequest`.  Optional fields are absent
(`none`) when the caller did not supply them; JS numbers are modelled by
rationals. -/
structure CompletionRequest where
  messages : List Message
  systemPrompt : Option String := none
  model : Option String := none
  temperature : Option Rat := none
  maxTokens : Option Int := none
  stream : Option Bool := none

/-- Truthiness of an optional string (`undefined` and `''` are falsy). -/
def strOptTruthy : Option String → Bool
  | some s => s != ""
  | none => false

/-- JS `v || d` for an optional string `v` and a non-empty literal default
`d` (an empty supplied string also falls back to the default). -/
def jsOrDefault (v : Option String) (d : String) : String :=
  match v with
  | some s => if s = "" then d else s
  | none => d

/-- The `roleMap` table of `UniversalProvider.normalizeRole`. -/
def roleMap : List (String × List (String × String)) :=
  [("anthropic", [("user", "user"), ("assistant", "assistant"), ("system", "system")]),
   ("openai", [("user", "user"), ("assistant", "assistant"), ("system", "system")]),
   ("google", [("user", "user"), ("assistant", "model"), ("system", "user")])]

/-- `UniversalProvider.normalizeRole(role, provider)`:
`roleMap[provider.name]?.[role] || role`.  Every mapped value in the table
is a non-empty (hence truthy) string, so `|| role` fires exactly when the
provider or the role is missing from the table. -/
def normalizeRole (role : String) (providerName : String) : String :=
  match (slookup roleMap providerName).bind (fun m => slookup m role) with
  | some mapped => mapped
  | none => role

/-- `UniversalProvider.normalizeMessages(messages, provider)`. -/
def normalizeMessages (messages : List Message) (providerName : String) : List Message :=
  messages.map (fun msg => { role := normalizeRole msg.role providerName, content := msg.content })

/-- The vendor-specific request shape produced by `normalizeRequest`:
the base fields are always set; `system` and `model` are assigned only in
the vendor branches. -/
structure NormalizedRequest where
  messages : List Message
  temperature : Rat
  maxTokens : Int
  stream : Bool
  system : Option String := none
  model : Option String := none
deriving DecidableEq

/-- `UniversalProvider.normalizeRequest(request, provider)`.  Note that the
`google` branch only sets the default model: a `systemPrompt` is neither
assigned to a `system` field nor injected into the message list there. -/
def normalizeRequest (request : CompletionRequest) (providerName : String) : NormalizedRequest :=
  let normalized : NormalizedRequest :=
    { messages := normalizeMessages request.messages providerName,
      temperature := request.temperature.getD (7 / 10),
      maxTokens := request.maxTokens.getD 4096,
      stream := request.stream.getD false }
  if providerName = "anthropic" then
    { normalized with
        system := request.systemPrompt,
        model := some (jsOrDefault request.model "claude-sonnet-4") }
  else if providerName = "openai" then
    let withModel := { normalized with model := some (jsOrDefault request.model "gpt-4") }
    if strOptTruthy request.systemPrompt then
      { withModel with
          messages := { role := "system", content := request.systemPrompt.getD "" } :: withModel.messages }
    else withModel
  else if providerName = "google" then
    { normalized with model := some (jsOrDefault request.model "gemini-pro") }
  else normalized

/-! ## GoogleProvider message conversion (src/src/providers/GoogleProvider.js) -/

/-- One `parts` entry of a Google chat message. -/
structure GooglePart where
  text : String
deriving DecidableEq

/-- A message of the Google chat-history shape. -/
structure GoogleMessage where
  role : String
  parts : List GooglePart
deriving DecidableEq

/-- `GoogleProvider.convertMessages(messages)`: role `assistant` becomes
`model`, every other role (including `system`) becomes `user`. -/
def convertMessages (messages : List Message) : List GoogleMessage :=
  messages.map (fun msg =>
    { role := if msg.role = "assistant" then "model" else "user",
      parts := [{ text := msg.content }] })

/-! ## Synthetic vendor responses (the shapes read by the extractors) -/

/-- A synthetic Anthropic-shaped response with the given token counts and a
deliberately bogus vendor-reported total. -/
def syntheticAnthropicResponse (i o bogusTotal : Int) : JSVal :=
  .obj [("content", .arr [.obj [("type", .str "text"), ("text", .str "hello")]]),
        ("model", .str "claude-sonnet-4"),
        ("stop_reason", .str "end_turn"),
        ("usage", .obj [("input_tokens", .num i), ("output_tokens", .num o),
                        ("total_tokens", .num bogusTotal)])]

/-- A synthetic OpenAI-shaped response with the given token counts and a
deliberately bogus vendor-reported total. -/
def syntheticOpenAIResponse (i o bogusTotal : Int) : JSVal :=
  .obj [("choices", .arr [.obj [("message", .obj [("role", .str "assistant"),
                                                  ("content", .str "hello")]),
                                ("finish_reason", .str "stop")]]),
        ("model", .str "gpt-4"),
        ("usage", .obj [("prompt_tokens", .num i), ("completion_tokens", .num o),
                        ("total_tokens", .num bogusTotal)])]

/-- A synthetic Google-shaped response with the given token counts and a
deliberately bogus vendor-reported total. -/
def syntheticGoogleResponse (i o bogusTotal : Int) : JSVal :=
  .obj [("candidates", .arr [.obj [("content", .obj [("parts", .arr [.obj [("text", .str "hello")]])]),
                                   ("finishReason", .str "STOP")]]),
        ("model", .str "gemini-pro"),
        ("usageMetadata", .obj [("promptTokenCount", .num i), ("candidatesTokenCount", .num o),
                                ("totalTokenCount", .num bogusTotal)])]

/-! ## UniversalProvider registry, completion and fallback
(src/unnamed/part_003).  The functions below additionally return the ordered
trace of provider names whose adapters (`provider.complete`) were actually
invoked, so that attempt-counting properties can be stated. -/

/-- A registered provider adapter: its `name` property (used by the
normalizer) and its `complete` behaviour on a normalized request, where
`Except.error` models a thrown/rejected vendor call. -/
structure Adapter where
  name : String
  behavior : NormalizedRequest → Except String JSVal

/-- The `UniversalProvider` instance state: the insertion-ordered `Map` of
registered providers and the default provider name (`null` initially). -/
structure UniversalProvider where
  providers : List (String × Adapter)
  defaultProvider : Option String

/-- The call-time options of `complete`: both fields are absent (`none`)
unless supplied by the caller. -/
structure CompleteOptions where
  provider : Option String := none
  enableFallback : Option Bool := none

/-- `options.provider || this.defaultProvider`. -/
def resolveProviderName (up : UniversalProvider) (options : CompleteOptions) : Option String :=
  if strOptTruthy options.provider then options.provider else up.defaultProvider

/-- One guarded attempt on a named adapter: normalize the request, run the
vendor call, normalize the response (the body of the `try` block of
`complete`). -/
def runAdapter (adapter : Adapter) (request : CompletionRequest) :
    Except JsError NormalizedResponse :=
  match adapter.behavior (normalizeRequest request adapter.name) with
  | .error e => .error (.vendorFailure e)
  | .ok response => normalizeResponse response adapter.name

/-- `complete(request, options)` when fallback does not fire: resolve the
provider name, `getProvider` (throws `Provider ... not found` before any
adapter is invoked), then one guarded attempt whose failure is rethrown.
This is exactly the behaviour of `complete` when
`options.enableFallback === false`; see `complete_enableFallback_false`. -/
def completeOnce (up : UniversalProvider) (request : CompletionRequest)
    (options : CompleteOptions) : List String × Except JsError NormalizedResponse :=
  match resolveProviderName up options with
  | none => ([], .error (.providerNotFound "null"))
  | some name =>
    match slookup up.providers name with
    | none => ([], .error (.providerNotFound name))
    | some adapter =>
      match runAdapter adapter request with
      | .ok nr => ([name], .ok nr)
      | .error e => ([name], .error e)

/-- The loop body of `tryFallback`: for each candidate, a nested
`this.complete(request, {...options, provider: name, enableFallback: false})`
(modelled by `completeOnce`, which `complete` provably equals under
`enableFallback = some false`); the first success is returned, failures are
swallowed and the loop continues; exhaustion throws `All providers failed`. -/
def tryFallbackGo (up : UniversalProvider) (request : CompletionRequest)
    (options : CompleteOptions) :
    List String → List String × Except JsError NormalizedResponse
  | [] => ([], .error .allProvidersFailed)
  | name :: rest =>
    let nested := completeOnce up request
      { options with provider := some name, enableFallback := some false }
    match nested.2 with
    | .ok nr => (nested.1, .ok nr)
    | .error _ =>
      let further := tryFallbackGo up request options rest
      (nested.1 ++ further.1, further.2)

/-- `UniversalProvider.tryFallback(request, failedProvider, options)`:
iterate over every registered provider except the one that just failed. -/
def UniversalProvider.tryFallback (up : UniversalProvider) (request : CompletionRequest)
    (failedProvider : String) (options : CompleteOptions) :
    List String × Except JsError NormalizedResponse :=
  tryFallbackGo up request options
    ((up.providers.map Prod.fst).filter (fun p => p ≠ failedProvider))

/-- `UniversalProvider.complete(request, options)`.  `getProvider` is called
outside the `try`, so an unregistered name propagates immediately (no adapter
invoked, no fallback); an attempt failure triggers `tryFallback` unless
`options.enableFallback === false`. -/
def UniversalProvider.complete (up : UniversalProvider) (request : CompletionRequest)
    (options : CompleteOptions) : List String × Except JsError NormalizedResponse :=
  match resolveProviderName up options with
  | none => ([], .error (.providerNotFound "null"))
  | some name =>
    match slookup up.providers name with
    | none => ([], .error (.providerNotFound name))
    | some adapter =>
      match runAdapter adapter request with
      | .ok nr => ([name], .ok nr)
      | .error e =>
        if options.enableFallback = some false then ([name], .error e)
        else
          let fb := up.tryFallback request name options
          (name :: fb.1, fb.2)

/-! ## ProviderManager: routing, fallback and cost tracking
(src/GETTING_STARTED.md, `class ProviderManager`). -/

/-- The per-call usage object consumed by the cost tracker. -/
structure PMUsage where
  inputTokens : Int
  outputTokens : Int
  totalTokens : Int
deriving DecidableEq

/-- The result of a ProviderManager provider call (only the usage matters to
the manager itself). -/
structure PMResult where
  usage : PMUsage

/-- The routing-relevant metadata of a request
(`request.metadata?.complexity`, `request.metadata?.useCase`). -/
structure PMMetadata where
  complexity : Option String := none
  useCase : Option String := none

/-- A request as seen by `ProviderManager.selectProvider`. -/
structure PMRequest where
  metadata : Option PMMetadata := none

/-- A provider held by the ProviderManager: its `name`, its model list, and
its `complete` behaviour (`Except.error` models a thrown/rejected call). -/
structure PMProvider where
  name : String
  models : List String
  behavior : PMRequest → Except String PMResult

/-- `config.monitoring`. -/
structure MonitoringConfig where
  trackCosts : Bool

/-- `config.ai.routing.fallback`. -/
structure FallbackConfig where
  enabled : Bool
  order : List String

/-- `config.ai.routing`. -/
structure RoutingConfig where
  strategy : String
  rules : List (String × String)
  fallback : FallbackConfig

/-- The configuration slice the ProviderManager reads. -/
structure PMConfig where
  routing : RoutingConfig
  monitoring : Option MonitoringConfig := none

/-- One entry of the per-provider cost ledger. -/
structure CostEntry where
  tokens : Int
  cost : Rat
deriving DecidableEq

/-- The ProviderManager instance state: config, the insertion-ordered
`providers` object, the `costTracker` map, and the
`REACT_APP_DEFAULT_PROVIDER` environment value. -/
structure ProviderManager where
  config : PMConfig
  providers : List (String × PMProvider)
  costTracker : List (String × CostEntry)
  envDefaultProvider : Option String := none

/-- Call-time options of `ProviderManager.complete`. -/
structure PMOptions where
  provider : Option String := none

/-- `ProviderManager.getDefaultProvider()`:
`this.providers[process.env.REACT_APP_DEFAULT_PROVIDER || 'anthropic'] ||
Object.values(this.providers)[0]` — an unregistered default name silently
falls back to the first registered provider. -/
def ProviderManager.getDefaultProvider (pm : ProviderManager) : Option PMProvider :=
  let defaultName := jsOrDefault pm.envDefaultProvider "anthropic"
  match slookup pm.providers defaultName with
  | some p => some p
  | none => pm.providers.head?.map Prod.snd

/-- Modelled from the spec: `provider.hasModel(modelString)` is called by
`getProviderForModel` but not defined in the available sources; the spec
resolves a rule "to the adapter that serves that model (by exact model
match...)", i.e. membership in the adapter's model list. -/
def PMProvider.hasModel (p : PMProvider) (modelString : String) : Bool :=
  p.models.contains modelString

/-- `ProviderManager.getProviderForModel(modelString)`.  A missing rule value
(`undefined`) throws a `TypeError` at `modelString.includes('/')`; a
`provider/model` string is resolved by its prefix (possibly to `undefined`);
otherwise the first provider that has the model wins, defaulting to
`getDefaultProvider()`. -/
def ProviderManager.getProviderForModel (pm : ProviderManager) (modelString : Option String) :
    Except JsError (Option PMProvider) :=
  match modelString with
  | none => .error (.typeError "cannot read properties of undefined (reading includes)")
  | some ms =>
    if ms.contains '/' then
      .ok (slookup pm.providers (ms.takeWhile (fun c => c ≠ '/')))
    else
      match pm.providers.find? (fun kp => kp.2.hasModel ms) with
      | some kp => .ok (some kp.2)
      | none => .ok pm.getDefaultProvider

/-- `ProviderManager.getCheapestProvider()`: local, else anthropic, else
openai, else the default provider. -/
def ProviderManager.getCheapestProvider (pm : ProviderManager) : Option PMProvider :=
  match slookup pm.providers "local" with
  | some p => some p
  | none =>
    match slookup pm.providers "anthropic" with
    | some p => some p
    | none =>
      match slookup pm.providers "openai" with
      | some p => some p
      | none => pm.getDefaultProvider

/-- `ProviderManager.getFastestProvider()`: local, else anthropic, else the
default provider. -/
def ProviderManager.getFastestProvider (pm : ProviderManager) : Option PMProvider :=
  match slookup pm.providers "local" with
  | some p => some p
  | none =>
    match slookup pm.providers "anthropic" with
    | some p => some p
    | none => pm.getDefaultProvider

/-- `ProviderManager.getBestQualityProvider()`: anthropic, else openai, else
the default provider. -/
def ProviderManager.getBestQualityProvider (pm : ProviderManager) : Option PMProvider :=
  match slookup pm.providers "anthropic" with
  | some p => some p
  | none =>
    match slookup pm.providers "openai" with
    | some p => some p
    | none => pm.getDefaultProvider

/-- `ProviderManager.selectProvider(request, options)`: an explicit (truthy)
`options.provider` wins unconditionally and is looked up directly (possibly
yielding `undefined`); then metadata rules; then the configured strategy. -/
def ProviderManager.selectProvider (pm : ProviderManager) (request : PMRequest)
    (options : PMOptions) : Except JsError (Option PMProvider) :=
  if strOptTruthy options.provider then
    .ok (slookup pm.providers (options.provider.getD ""))
  else
    let rules := pm.config.routing.rules
    if (request.metadata.bind PMMetadata.complexity) = some "simple" then
      pm.getProviderForModel (slookup rules "simple-queries")
    else if (request.metadata.bind PMMetadata.complexity) = some "complex" then
      pm.getProviderForModel (slookup rules "complex-reasoning")
    else if (request.metadata.bind PMMetadata.useCase) = some "embeddings" then
      pm.getProviderForModel (slookup rules "embeddings")
    else
      match pm.config.routing.strategy with
      | "cost-optimized" => .ok pm.getCheapestProvider
      | "latency-optimized" => .ok pm.getFastestProvider
      | "quality-optimized" => .ok pm.getBestQualityProvider
      | _ => .ok pm.getDefaultProvider

/-- `config.monitoring?.trackCosts` as a boolean (absent monitoring is
falsy). -/
def trackCostsEnabled (c : PMConfig) : Bool :=
  match c.monitoring with
  | some m => m.trackCosts
  | none => false

/-- The static price table of `ProviderManager.calculateCost`, in USD per
token (input price, output price), exactly as written in the source. -/
def pricingTable : List (String × List (String × Rat × Rat)) :=
  [("anthropic",
    [("claude-opus-4", (15 / 1000000, 75 / 1000000)),
     ("claude-sonnet-4", (3 / 1000000, 15 / 1000000)),
     ("claude-haiku-4", (1 / 4000000, 5 / 4000000))]),
   ("openai",
    [("gpt-4", (30 / 1000000, 60 / 1000000)),
     ("gpt-4-turbo", (10 / 1000000, 30 / 1000000)),
     ("gpt-3-5-turbo", (1 / 2000000, 3 / 2000000))]),
   ("local",
    [("default", (0, 0))])]

/-- `ProviderManager.calculateCost(providerName, usage)`: the price entry is
`Object.values(pricing[providerName] || pricing.local)[0]` — the first model
entry of the provider's table (an approximation flagged by the spec); every
table row is non-empty, so the `(0, 0)` default of `getD` is never taken. -/
def ProviderManager.calculateCost (providerName : String) (usage : PMUsage) : Rat :=
  let providerPricing :=
    match slookup pricingTable providerName with
    | some pp => pp
    | none => (slookup pricingTable "local").getD []
  let modelPricing := ((providerPricing.head?).map Prod.snd).getD (0, 0)
  usage.inputTokens * modelPricing.1 + usage.outputTokens * modelPricing.2

/-- JS `Map.set(k, v)`: overwrite in place when the key exists, append
otherwise. -/
def mapSet (m : List (String × CostEntry)) (k : String) (v : CostEntry) :
    List (String × CostEntry) :=
  if (slookup m k).isSome then
    m.map (fun kv => if kv.1 = k then (k, v) else kv)
  else m ++ [(k, v)]

/-- `ProviderManager.trackCost(providerName, usage)`: a no-op unless
`config.monitoring?.trackCosts` is truthy; otherwise read-modify-write of the
provider's ledger entry (starting from `{tokens: 0, cost: 0}`). -/
def ProviderManager.trackCost (pm : ProviderManager) (providerName : String)
    (usage : PMUsage) : ProviderManager :=
  if !trackCostsEnabled pm.config then pm
  else
    let current := (slookup pm.costTracker providerName).getD { tokens := 0, cost := 0 }
    let updated : CostEntry :=
      { tokens := current.tokens + usage.totalTokens,
        cost := current.cost + ProviderManager.calculateCost providerName usage }
    { pm with costTracker := mapSet pm.costTracker providerName updated }

/-- `Number.prototype.toFixed(4)` on an exact rational: four zero-padded
decimal digits, rounding to the nearest 1/10000. -/
def toFixed4 (q : Rat) : String :=
  let scaled : Int := round (q * 10000)
  let sign := if scaled < 0 then "-" else ""
  let n := scaled.natAbs
  let fracDigits := toString (n % 10000)
  let padding := String.mk (List.replicate (4 - fracDigits.length) '0')
  sign ++ toString (n / 10000) ++ "." ++ padding ++ fracDigits

/-- `ProviderManager.getCostSummary()`:
`{provider: {tokens, cost: cost.toFixed(4), currency: 'USD'}}`. -/
def ProviderManager.getCostSummary (pm : ProviderManager) :
    List (String × Int × String × String) :=
  pm.costTracker.map (fun kv => (kv.1, kv.2.tokens, toFixed4 kv.2.cost, "USD"))

/-- The loop body of `ProviderManager.tryFallback`: walk the configured
fallback order, skipping the failed provider and unregistered names; track
cost on the first success; throw `All providers failed` on exhaustion.
Returns the adapters invoked, the updated manager, and the outcome. -/
def ProviderManager.tryFallbackGoPM (pm : ProviderManager) (request : PMRequest)
    (failedProvider : String) :
    List String → List PMProvider × ProviderManager × Except JsError PMResult
  | [] => ([], pm, .error .allProvidersFailed)
  | name :: rest =>
    if name = failedProvider then pm.tryFallbackGoPM request failedProvider rest
    else
      match slookup pm.providers name with
      | none => pm.tryFallbackGoPM request failedProvider rest
      | some provider =>
        match provider.behavior request with
        | .ok result => ([provider], pm.trackCost name result.usage, .ok result)
        | .error _ => pm.tryFallbackGoPM request failedProvider rest

/-- `ProviderManager.tryFallback(request, failedProvider)`. -/
def ProviderManager.tryFallbackPM (pm : ProviderManager) (request : PMRequest)
    (failedProvider : String) : List PMProvider × ProviderManager × Except JsError PMResult :=
  pm.tryFallbackGoPM request failedProvider pm.config.routing.fallback.order

/-- `ProviderManager.complete(request, options)`: select, attempt, track
cost on success, fall back on failure when `config.ai.routing.fallback.enabled`.
A selection of `undefined` (unregistered explicit provider with empty
registry paths) throws a `TypeError` at `provider.complete`.  Returns the
ordered list of adapters invoked, the updated manager, and the outcome. -/
def ProviderManager.completePM (pm : ProviderManager) (request : PMRequest)
    (options : PMOptions) : List PMProvider × ProviderManager × Except JsError PMResult :=
  match pm.selectProvider request options with
  | .error e => ([], pm, .error e)
  | .ok none => ([], pm, .error (.typeError "cannot read properties of undefined (reading complete)"))
  | .ok (some provider) =>
    match provider.behavior request with
    | .ok result => ([provider], pm.trackCost provider.name result.usage, .ok result)
    | .error err =>
      if pm.config.routing.fallback.enabled then
        let fb := pm.tryFallbackPM request provider.name
        (provider :: fb.1, fb.2.1, fb.2.2)
      else ([provider], pm, .error (.vendorFailure err))

/-! ## Adapter liveness predicates
(src/unnamed/part_003 `AnthropicProvider`, src/unnamed/part_002
`OpenAIProvider`, src/src/providers/GoogleProvider.js). -/

/-- An optional string credential as the JS value stored in a client. -/
def optStrToJS : Option String → JSVal
  | some s => .str s
  | none => .jsUndefined

/-- `new Anthropic({ apiKey: config.apiKey })`: the SDK client object, which
carries the (possibly undefined) `apiKey`. -/
def mkAnthropicClient (apiKey : Option String) : JSVal :=
  .obj [("apiKey", optStrToJS apiKey)]

/-- `AnthropicProvider.isAvailable()`: `!!this.client.apiKey`. -/
def anthropicIsAvailable (client : JSVal) : Bool :=
  (client.getField "apiKey").truthy

/-- `new OpenAI({ apiKey: config.apiKey })`. -/
def mkOpenAIClient (apiKey : Option String) : JSVal :=
  .obj [("apiKey", optStrToJS apiKey)]

/-- `OpenAIProvider.isAvailable()`: `!!this.client.apiKey`. -/
def openaiIsAvailable (client : JSVal) : Bool :=
  (client.getField "apiKey").truthy

/-- `new GoogleGenerativeAI(config.apiKey)`: the constructor returns an
object unconditionally, also when `config.apiKey` is undefined. -/
def mkGoogleClient (apiKey : Option String) : JSVal :=
  .obj [("apiKey", optStrToJS apiKey)]

/-- `GoogleProvider.isAvailable()`: `!!this.client` — the truthiness of the
client object itself, not of the credential. -/
def googleIsAvailable (client : JSVal) : Bool :=
  client.truthy

/-! ## Shared lemmas about lookups, `jsOr` and the fallback loop. -/

theorem slookup_isSome_of_mem {β : Type} {m : List (String × β)} {k : String}
    (h : k ∈ m.map Prod.fst) : ∃ v, slookup m k = some v := by
  induction m with
  | nil => simp at h
  | cons a rest ih =>
    by_cases hk : a.1 = k
    · exact ⟨a.2, by simp [slookup, hk]⟩
    · simp only [List.map_cons, List.mem_cons] at h
      rcases h with h | h
      · exact absurd h.symm hk
      · obtain ⟨v, hv⟩ := ih h
        exact ⟨v, by simp [slookup, hk, hv]⟩

theorem mem_of_slookup {β : Type} {m : List (String × β)} {k : String} {v : β}
    (h : slookup m k = some v) : (k, v) ∈ m := by
  induction m with
  | nil => simp [slookup] at h
  | cons a rest ih =>
    obtain ⟨a1, a2⟩ := a
    by_cases hk : a1 = k
    · subst hk
      simp only [slookup, if_pos] at h
      obtain rfl : a2 = v := by injection h
      exact List.mem_cons_self _ _
    · simp only [slookup, if_neg hk] at h
      exact List.mem_cons_of_mem _ (ih h)

theorem slookup_append_of_none {β : Type} {m₁ m₂ : List (String × β)} {k : String}
    (h : slookup m₁ k = none) : slookup (m₁ ++ m₂) k = slookup m₂ k := by
  induction m₁ with
  | nil => rfl
  | cons a rest ih =>
    obtain ⟨a1, a2⟩ := a
    by_cases hk : a1 = k
    · simp [slookup, hk] at h
    · simp only [slookup, if_neg hk] at h
      simp only [List.cons_append, slookup, if_neg hk]
      exact ih h

theorem slookup_map_replace {m : List (String × CostEntry)} {k : String} (v : CostEntry)
    (h : (slookup m k).isSome) :
    slookup (m.map (fun kv => if kv.1 = k then (k, v) else kv)) k = some v := by
  induction m with
  | nil => simp [slookup] at h
  | cons a rest ih =>
    obtain ⟨a1, a2⟩ := a
    by_cases hk : a1 = k
    · subst hk
      have hhead : (if (a1, a2).1 = a1 then (a1, v) else (a1, a2)) = (a1, v) :=
        if_pos rfl
      rw [List.map_cons, hhead]
      show (if a1 = a1 then some v
            else slookup (List.map (fun kv => if kv.1 = a1 then (a1, v) else kv) rest) a1) = some v
      rw [if_pos rfl]
    · simp only [slookup, if_neg hk] at h
      have hhead : (if (a1, a2).1 = k then (k, v) else (a1, a2)) = (a1, a2) :=
        if_neg hk
      rw [List.map_cons, hhead]
      show (if a1 = k then some a2
            else slookup (List.map (fun kv => if kv.1 = k then (k, v) else kv) rest) k) = some v
      rw [if_neg hk]
      exact ih h

theorem slookup_mapSet_self (m : List (String × CostEntry)) (k : String) (v : CostEntry) :
    slookup (mapSet m k v) k = some v := by
  unfold mapSet
  by_cases h : (slookup m k).isSome
  · rw [if_pos h]
    exact slookup_map_replace v h
  · rw [if_neg h]
    have hnone : slookup m k = none := by
      rcases hm : slookup m k with _ | v2
      · rfl
      · rw [hm] at h
        simp at h
    rw [slookup_append_of_none hnone]
    simp [slookup]

theorem jsOr_num_zero (n : Int) : jsOr (.num n) (.num 0) = .num n := by
  by_cases h : n = 0
  · subst h
    rfl
  · simp [jsOr, JSVal.truthy, h]

theorem jsAdd_jsOr_zero (a b : Int) :
    jsAdd (jsOr (.num a) (.num 0)) (jsOr (.num b) (.num 0)) = .num (a + b) := by
  rw [jsOr_num_zero, jsOr_num_zero]
  rfl

/-- The `content || text || ''` fallback as a single `jsOr` value. -/
theorem ite_jsOr (c t : JSVal) :
    (if c.truthy then (pure c : Except JsError JSVal)
     else pure (jsOr t (.str ""))) = .ok (jsOr c (jsOr t (.str ""))) := by
  by_cases hc : c.truthy
  · rw [if_pos hc]
    unfold jsOr
    rw [if_pos hc]
    rfl
  · rw [if_neg hc]
    conv_rhs => unfold jsOr
    rw [if_neg hc]
    rfl

/-- `complete` with `options.enableFallback === false` is exactly one
guarded attempt with the thrown error rethrown — the behaviour `completeOnce`
captures, and hence exactly what each nested fallback attempt
(`{...options, provider, enableFallback: false}`) performs. -/
theorem complete_enableFallback_false (up : UniversalProvider)
    (request : CompletionRequest) (options : CompleteOptions)
    (h : options.enableFallback = some false) :
    up.complete request options = completeOnce up request options := by
  unfold UniversalProvider.complete completeOnce
  rcases hres : resolveProviderName up options with _ | name
  · rfl
  · simp only
    rcases hl : slookup up.providers name with _ | adapter
    · rfl
    · simp only
      rcases hr : runAdapter adapter request with e | nr
      · simp [h]
      · rfl

/-- The nested fallback attempt on a non-empty unregistered candidate. -/
theorem completeOnce_candidate_missing (up : UniversalProvider)
    (request : CompletionRequest) (options : CompleteOptions) (k : String)
    (hk : k ≠ "") (hl : slookup up.providers k = none) :
    completeOnce up request
        { options with provider := some k, enableFallback := some false } =
      ([], .error (.providerNotFound k)) := by
  have hres : resolveProviderName up
      { options with provider := some k, enableFallback := some false } = some k := by
    simp [resolveProviderName, strOptTruthy, hk]
  unfold completeOnce
  simp only [hres, hl]

/-- The nested fallback attempt on a non-empty registered candidate whose
attempt fails. -/
theorem completeOnce_candidate_fail (up : UniversalProvider)
    (request : CompletionRequest) (options : CompleteOptions) (k : String)
    (adapter : Adapter) (e : JsError) (hk : k ≠ "")
    (hl : slookup up.providers k = some adapter)
    (hr : runAdapter adapter request = .error e) :
    completeOnce up request
        { options with provider := some k, enableFallback := some false } =
      ([k], .error e) := by
  have hres : resolveProviderName up
      { options with provider := some k, enableFallback := some false } = some k := by
    simp [resolveProviderName, strOptTruthy, hk]
  unfold completeOnce
  simp only [hres, hl, hr]

/-- The nested fallback attempt on a non-empty registered candidate whose
attempt succeeds. -/
theorem completeOnce_candidate_ok (up : UniversalProvider)
    (request : CompletionRequest) (options : CompleteOptions) (k : String)
    (adapter : Adapter) (nr : NormalizedResponse) (hk : k ≠ "")
    (hl : slookup up.providers k = some adapter)
    (hr : runAdapter adapter request = .ok nr) :
    completeOnce up request
        { options with provider := some k, enableFallback := some false } =
      ([k], .ok nr) := by
  have hres : resolveProviderName up
      { options with provider := some k, enableFallback := some false } = some k := by
    simp [resolveProviderName, strOptTruthy, hk]
  unfold completeOnce
  simp only [hres, hl, hr]

/-- The trace of the fallback loop is a sublist of the candidate list (each
candidate is attempted at most once, in order), provided no candidate name
is the empty string (an empty name would resolve to the default provider). -/
theorem tryFallbackGo_trace_sublist (up : UniversalProvider) (request : CompletionRequest)
    (options : CompleteOptions) :
    ∀ L : List String, (∀ k ∈ L, k ≠ "") →
      (tryFallbackGo up request options L).1.Sublist L := by
  intro L
  induction L with
  | nil =>
    intro _
    simp [tryFallbackGo]
  | cons k rest ih =>
    intro h
    have hk : k ≠ "" := h k (List.mem_cons_self _ _)
    have hrest : ∀ x ∈ rest, x ≠ "" := fun x hx => h x (List.mem_cons_of_mem _ hx)
    unfold tryFallbackGo
    rcases hl : slookup up.providers k with _ | adapter
    · rw [completeOnce_candidate_missing up request options k hk hl]
      exact (ih hrest).cons k
    · rcases hr : runAdapter adapter request with e | nr
      · rw [completeOnce_candidate_fail up request options k adapter e hk hl hr]
        exact (ih hrest).cons₂ k
      · rw [completeOnce_candidate_ok up request options k adapter nr hk hl hr]
        exact (List.nil_sublist rest).cons₂ k

/-- If every candidate in the list fails its attempt, the fallback loop
attempts each candidate exactly once, in order, and throws
`All providers failed`. -/
theorem tryFallbackGo_all_fail (up : UniversalProvider) (request : CompletionRequest)
    (options : CompleteOptions) :
    ∀ L : List String,
      (∀ k ∈ L, k ≠ "" ∧ ∃ adapter, slookup up.providers k = some adapter ∧
        ∃ e, runAdapter adapter request = .error e) →
      tryFallbackGo up request options L = (L, .error .allProvidersFailed) := by
  intro L
  induction L with
  | nil =>
    intro _
    rfl
  | cons k rest ih =>
    intro h
    obtain ⟨hk, adapter, hl, e, hr⟩ := h k (List.mem_cons_self _ _)
    have hrest := fun x hx => h x (List.mem_cons_of_mem _ hx)
    unfold tryFallbackGo
    rw [completeOnce_candidate_fail up request options k adapter e hk hl hr, ih hrest]
    rfl

/-! ## Claim theorems -/

/-- C1 counterexample: the claim that every normalized `finishReason` lies
in the closed set `{complete, length, tool_use, error, unknown}` is false —
an Anthropic response with `stop_reason: 'end_turn'` is normalized to the
raw vendor value `'end_turn'`, which is not in the set. -/
theorem finishReason_closed_set_counterexample :
    extractFinishReason (syntheticAnthropicResponse 1 2 3) "anthropic" = .ok (.str "end_turn") ∧
    "end_turn" ∉ ["complete", "length", "tool_use", "error", "unknown"] :=
  ⟨rfl, by decide⟩

/-- C1 (amended): for every unrecognized provider name, `finishReason` is
the string `'unknown'`; for each of the three recognized vendors the raw
vendor finish value is passed through unmapped — anthropic:
`response.stop_reason` as-is, openai: `choices[0]?.finish_reason` of the
vendor's choices array, google: `candidates[0]?.finishReason` of the
vendor's candidates array — with no normalization to the documented closed
set. -/
theorem finishReason_passthrough :
    (∀ (response : JSVal) (p : String), p ∉ ["anthropic", "openai", "google"] →
      extractFinishReason response p = .ok (.str "unknown")) ∧
    (∀ response : JSVal, response.isNullish = false →
      extractFinishReason response "anthropic" = .ok (response.getField "stop_reason")) ∧
    (∀ (response : JSVal) (elems : List JSVal), response.isNullish = false →
      response.getField "choices" = .arr elems →
      extractFinishReason response "openai"
        = .ok ((elems.getD 0 .jsUndefined).optMember "finish_reason")) ∧
    (∀ (response : JSVal) (elems : List JSVal), response.isNullish = false →
      response.getField "candidates" = .arr elems →
      extractFinishReason response "google"
        = .ok ((elems.getD 0 .jsUndefined).optMember "finishReason")) := by
  refine ⟨?_, ?_, ?_, ?_⟩
  · intro response p hp
    simp only [List.mem_cons, List.not_mem_nil, or_false, not_or] at hp
    obtain ⟨h1, h2, h3⟩ := hp
    unfold extractFinishReason
    rw [if_neg h1, if_neg h2, if_neg h3]
    rfl
  · intro response h
    simp [extractFinishReason, JSVal.member, h]
  · intro response elems hnn hch
    have hmem : response.member "choices" = .ok (.arr elems) := by
      unfold JSVal.member
      rw [hnn, hch]
      rfl
    show (response.member "choices" >>= fun ch => ch.item 0 >>= fun c0 =>
          pure (c0.optMember "finish_reason"))
        = .ok ((elems.getD 0 JSVal.jsUndefined).optMember "finish_reason")
    rw [hmem]
    rfl
  · intro response elems hnn hch
    have hmem : response.member "candidates" = .ok (.arr elems) := by
      unfold JSVal.member
      rw [hnn, hch]
      rfl
    show (response.member "candidates" >>= fun cs => cs.item 0 >>= fun c0 =>
          pure (c0.optMember "finishReason"))
        = .ok ((elems.getD 0 JSVal.jsUndefined).optMember "finishReason")
    rw [hmem]
    rfl

/-- C1 witness: a concrete response under an unrecognized provider name
yields `'unknown'`, while concrete vendor responses yield the raw vendor
values `'end_turn'` (anthropic), `'content_filter'` (openai) and `'SAFETY'`
(google), none of which lie in the documented closed set. -/
theorem finishReason_passthrough_witness :
    extractFinishReason (.obj [("stop_reason", .str "end_turn")]) "mistral" = .ok (.str "unknown") ∧
    extractFinishReason (.obj [("stop_reason", .str "end_turn")]) "anthropic" = .ok (.str "end_turn") ∧
    extractFinishReason
        (.obj [("choices", .arr [.obj [("finish_reason", .str "content_filter")]])]) "openai"
      = .ok (.str "content_filter") ∧
    extractFinishReason
        (.obj [("candidates", .arr [.obj [("finishReason", .str "SAFETY")]])]) "google"
      = .ok (.str "SAFETY") := by
  refine ⟨?_, ?_, ?_, ?_⟩
  · exact finishReason_passthrough.1 (.obj [("stop_reason", .str "end_turn")]) "mistral" (by decide)
  · exact (finishReason_passthrough.2.1 (.obj [("stop_reason", .str "end_turn")]) rfl).trans rfl
  · exact (finishReason_passthrough.2.2.1
      (.obj [("choices", .arr [.obj [("finish_reason", .str "content_filter")]])])
      [.obj [("finish_reason", .str "content_filter")]] rfl rfl).trans rfl
  · exact (finishReason_passthrough.2.2.2
      (.obj [("candidates", .arr [.obj [("finishReason", .str "SAFETY")]])])
      [.obj [("finishReason", .str "SAFETY")]] rfl rfl).trans rfl

/-- The request of the C4 counterexample: one user turn plus a system
prompt. -/
def googleRequestEx : CompletionRequest :=
  { messages := [{ role := "user", content := "Hello" }],
    systemPrompt := some "Be concise" }

/-- C4 counterexample: normalizing a request with `systemPrompt:
'Be concise'` for google leaves the message list exactly the original single
user turn — the system prompt is not folded into the first turn (nor set as
a `system` field); it is dropped. -/
theorem google_system_prompt_dropped_counterexample :
    (normalizeRequest googleRequestEx "google").messages = [{ role := "user", content := "Hello" }] ∧
    (normalizeRequest googleRequestEx "google").system = none ∧
    ∀ m ∈ (normalizeRequest googleRequestEx "google").messages, m.content ≠ "Be concise" := by
  refine ⟨rfl, rfl, ?_⟩
  intro m hm
  simp only [show (normalizeRequest googleRequestEx "google").messages
      = [{ role := "user", content := "Hello" }] from rfl, List.mem_singleton] at hm
  subst hm
  decide

/-- C4 (amended): for google, message roles are mapped
`assistant → model` and `system → user` (other roles unchanged), both by the
normalizer's role map and by `GoogleProvider.convertMessages`; but the
request's `systemPrompt` is not folded into the first turn — the normalized
google request has no `system` field and its messages are exactly the
role-mapped original messages, so the system prompt is omitted entirely. -/
theorem google_role_mapping_amended :
    (∀ request : CompletionRequest,
      (normalizeRequest request "google").messages
        = request.messages.map
            (fun m => { role := normalizeRole m.role "google", content := m.content }) ∧
      (normalizeRequest request "google").system = none) ∧
    normalizeRole "assistant" "google" = "model" ∧
    normalizeRole "system" "google" = "user" ∧
    (∀ messages : List Message,
      (convertMessages messages).map GoogleMessage.role
        = messages.map (fun m => if m.role = "assistant" then "model" else "user")) := by
  refine ⟨fun request => ⟨rfl, rfl⟩, rfl, rfl, fun messages => ?_⟩
  simp [convertMessages]

/-- C5: for every synthetic vendor response of each of the three vendor
shapes with non-negative integer token counts — and an arbitrary, possibly
inconsistent, vendor-reported total field — the normalized
`usage.totalTokens` is computed as `inputTokens + outputTokens` exactly and
never taken from the vendor total. -/
theorem totalTokens_computed (i o bogus : Int) (hi : 0 ≤ i) (ho : 0 ≤ o) :
    (∃ r, normalizeResponse (syntheticAnthropicResponse i o bogus) "anthropic" = .ok r ∧
      r.usage.inputTokens = .num i ∧ r.usage.outputTokens = .num o ∧
      r.usage.totalTokens = .num (i + o)) ∧
    (∃ r, normalizeResponse (syntheticOpenAIResponse i o bogus) "openai" = .ok r ∧
      r.usage.inputTokens = .num i ∧ r.usage.outputTokens = .num o ∧
      r.usage.totalTokens = .num (i + o)) ∧
    (∃ r, normalizeResponse (syntheticGoogleResponse i o bogus) "google" = .ok r ∧
      r.usage.inputTokens = .num i ∧ r.usage.outputTokens = .num o ∧
      r.usage.totalTokens = .num (i + o)) := by
  exact ⟨⟨_, rfl, jsOr_num_zero i, jsOr_num_zero o, jsAdd_jsOr_zero i o⟩,
         ⟨_, rfl, jsOr_num_zero i, jsOr_num_zero o, jsAdd_jsOr_zero i o⟩,
         ⟨_, rfl, jsOr_num_zero i, jsOr_num_zero o, jsAdd_jsOr_zero i o⟩⟩

/-- C5 witness: the anthropic shape at `input = 3`, `output = 5` and a bogus
vendor total of `999` normalizes to `totalTokens = 8`. -/
theorem totalTokens_computed_witness :
    0 ≤ (3 : Int) ∧ 0 ≤ (5 : Int) ∧
    ∃ r, normalizeResponse (syntheticAnthropicResponse 3 5 999) "anthropic" = .ok r ∧
      r.usage.totalTokens = .num 8 := by
  obtain ⟨⟨r, hr, _, _, ht⟩, _, _⟩ := totalTokens_computed 3 5 999 (by decide) (by decide)
  exact ⟨by decide, by decide, r, hr, ht.trans rfl⟩

/-- C6 counterexample: the claim that normalization never throws when no
text can be extracted is false for recognized vendors — an anthropic-tagged
response without a `content` array makes `response.content[0]` throw a
`TypeError`, so `normalizeResponse` propagates an error instead of
degrading to empty-string content. -/
theorem extract_content_throws_counterexample :
    normalizeResponse (.obj [("model", .str "m")]) "anthropic"
      = .error (.typeError "cannot index nullish value") := rfl

/-- C6 (amended): for every object response carrying an unrecognized
provider name, normalization does not throw: content extraction falls back
to the generic `content`/`text` lookup, and yields the empty string when
neither field holds a truthy value.  (For recognized vendors, extraction of
a response missing its expected container field throws instead, per the
counterexample.) -/
theorem unknown_provider_no_throw_amended :
    ∀ (fields : List (String × JSVal)) (p : String), p ∉ ["anthropic", "openai", "google"] →
      ∃ r, normalizeResponse (.obj fields) p = .ok r ∧
        r.content = jsOr ((JSVal.obj fields).getField "content")
          (jsOr ((JSVal.obj fields).getField "text") (.str "")) ∧
        (((JSVal.obj fields).getField "content").truthy = false →
          ((JSVal.obj fields).getField "text").truthy = false →
          r.content = .str "") := by
  intro fields p hp
  simp only [List.mem_cons, List.not_mem_nil, or_false, not_or] at hp
  obtain ⟨h1, h2, h3⟩ := hp
  have hcontent : extractContent (.obj fields) p
      = .ok (jsOr ((JSVal.obj fields).getField "content")
          (jsOr ((JSVal.obj fields).getField "text") (.str ""))) := by
    unfold extractContent
    rw [if_neg h1, if_neg h2, if_neg h3]
    exact ite_jsOr ((JSVal.obj fields).getField "content") ((JSVal.obj fields).getField "text")
  have hfr : extractFinishReason (.obj fields) p = .ok (.str "unknown") := by
    unfold extractFinishReason
    rw [if_neg h1, if_neg h2, if_neg h3]
    rfl
  have hin : extractInputTokens (.obj fields) p = .ok (.num 0) := by
    unfold extractInputTokens
    rw [if_neg h1, if_neg h2, if_neg h3]
    rfl
  have hout : extractOutputTokens (.obj fields) p = .ok (.num 0) := by
    unfold extractOutputTokens
    rw [if_neg h1, if_neg h2, if_neg h3]
    rfl
  have htot : extractTotalTokens (.obj fields) p = .ok (.num 0) := by
    unfold extractTotalTokens
    rw [hin, hout]
    rfl
  refine ⟨{ content := jsOr ((JSVal.obj fields).getField "content")
              (jsOr ((JSVal.obj fields).getField "text") (.str "")),
            model := (JSVal.obj fields).getField "model",
            provider := p,
            usage := { inputTokens := .num 0, outputTokens := .num 0, totalTokens := .num 0 },
            finishReason := .str "unknown" }, ?_, rfl, ?_⟩
  · unfold normalizeResponse
    rw [hcontent, hfr, hin, hout, htot]
    rfl
  · intro hc ht
    simp [jsOr, hc, ht]

/-- C6 witness: the empty object under an unrecognized provider name
normalizes without throwing, to empty-string content. -/
theorem unknown_provider_no_throw_amended_witness :
    ∃ r, normalizeResponse (.obj []) "mistral" = .ok r ∧ r.content = .str "" := by
  obtain ⟨r, hok, _, hempty⟩ := unknown_provider_no_throw_amended [] "mistral" (by decide)
  exact ⟨r, hok, hempty rfl rfl⟩

/-- C9: the claim that `isAvailable()` is true iff a credential is
configured holds for the anthropic and openai adapters
(`!!this.client.apiKey`) but is violated by `GoogleProvider.isAvailable`,
which tests `!!this.client` — the always-truthy constructed client object —
and therefore reports available even when no credential was supplied. -/
theorem google_isAvailable_bug :
    (∀ apiKey : Option String, googleIsAvailable (mkGoogleClient apiKey) = true) ∧
    googleIsAvailable (mkGoogleClient none) = true ∧
    anthropicIsAvailable (mkAnthropicClient none) = false ∧
    anthropicIsAvailable (mkAnthropicClient (some "sk-ant-secret")) = true ∧
    openaiIsAvailable (mkOpenAIClient none) = false ∧
    openaiIsAvailable (mkOpenAIClient (some "sk-secret")) = true := by
  refine ⟨fun apiKey => rfl, rfl, rfl, ?_, rfl, ?_⟩ <;> decide

/-- C10: when `config.monitoring?.trackCosts` is falsy — including when the
`monitoring` key is absent — `trackCost` is a complete no-op: the manager
state (hence the cost ledger) is unchanged and `getCostSummary` returns the
same map before and after. -/
theorem trackCost_disabled_frame (pm : ProviderManager) (name : String) (usage : PMUsage)
    (h : trackCostsEnabled pm.config = false) :
    pm.trackCost name usage = pm ∧
    (pm.trackCost name usage).getCostSummary = pm.getCostSummary := by
  have hid : pm.trackCost name usage = pm := by
    simp [ProviderManager.trackCost, h]
  exact ⟨hid, by rw [hid]⟩

/-- A manager whose configuration has no `monitoring` key at all. -/
def pmNoMonitoring : ProviderManager :=
  { config := { routing := { strategy := "default", rules := [],
                             fallback := { enabled := true, order := [] } },
                monitoring := none },
    providers := [], costTracker := [] }

/-- C10 witness: a completed call's usage tracked under a configuration with
no `monitoring` key leaves the manager and its cost summary unchanged. -/
theorem trackCost_disabled_frame_witness :
    pmNoMonitoring.trackCost "anthropic" { inputTokens := 100, outputTokens := 50, totalTokens := 150 }
      = pmNoMonitoring ∧
    (pmNoMonitoring.trackCost "anthropic" { inputTokens := 100, outputTokens := 50, totalTokens := 150 }).getCostSummary
      = pmNoMonitoring.getCostSummary :=
  trackCost_disabled_frame pmNoMonitoring "anthropic"
    { inputTokens := 100, outputTokens := 50, totalTokens := 150 } rfl

/-- `trackCost` never touches the configuration. -/
theorem trackCost_preserves_config (pm : ProviderManager) (n : String) (u : PMUsage) :
    (pm.trackCost n u).config = pm.config := by
  unfold ProviderManager.trackCost
  split <;> rfl

/-- Helper for the cost claims: the ledger after a `trackCost` under an
enabled configuration is the read-modify-write of the provider's entry. -/
theorem trackCost_costTracker (pm : ProviderManager) (n : String) (u : PMUsage)
    (h : trackCostsEnabled pm.config = true) :
    (pm.trackCost n u).costTracker = mapSet pm.costTracker n
      ({ tokens := ((slookup pm.costTracker n).getD { tokens := 0, cost := 0 }).tokens
                     + u.totalTokens,
         cost := ((slookup pm.costTracker n).getD { tokens := 0, cost := 0 }).cost
                     + ProviderManager.calculateCost n u }) := by
  unfold ProviderManager.trackCost
  rw [h]
  rfl

/-- C8: two calls recorded against the same (previously untracked) provider
accumulate: the running token count is the sum of the two totals and the
running cost is the sum of the two individually computed costs; and the
per-call cost is linear, `inputTokens * priceIn + outputTokens * priceOut`,
with prices taken from the static table. -/
theorem cost_accumulation (pm : ProviderManager) (n : String) (u1 u2 : PMUsage)
    (henabled : trackCostsEnabled pm.config = true)
    (hnone : slookup pm.costTracker n = none) :
    slookup ((pm.trackCost n u1).trackCost n u2).costTracker n
      = some { tokens := u1.totalTokens + u2.totalTokens,
               cost := ProviderManager.calculateCost n u1
                       + ProviderManager.calculateCost n u2 } ∧
    ∃ priceIn priceOut : Rat, ∀ u : PMUsage,
      ProviderManager.calculateCost n u
        = u.inputTokens * priceIn + u.outputTokens * priceOut := by
  constructor
  · have henabled1 : trackCostsEnabled (pm.trackCost n u1).config = true := by
      rw [trackCost_preserves_config pm n u1]
      exact henabled
    rw [trackCost_costTracker (pm.trackCost n u1) n u2 henabled1,
        trackCost_costTracker pm n u1 henabled,
        slookup_mapSet_self, slookup_mapSet_self, hnone]
    simp
  · exact ⟨_, _, fun u => rfl⟩

/-- The manager used by the cost-accumulation witness:
`trackCosts` enabled, empty ledger. -/
def pmTrackingEx : ProviderManager :=
  { config := { routing := { strategy := "default", rules := [],
                             fallback := { enabled := true, order := [] } },
                monitoring := some { trackCosts := true } },
    providers := [], costTracker := [] }

/-- C8 witness: the spec's own example — usages `{in:100, out:50}` then
`{in:200, out:100}` against one provider — yields running tokens `150 + 300`
and running cost equal to the sum of the two individually computed costs. -/
theorem cost_accumulation_witness :
    trackCostsEnabled pmTrackingEx.config = true ∧
    slookup ((pmTrackingEx.trackCost "anthropic"
          { inputTokens := 100, outputTokens := 50, totalTokens := 150 }).trackCost "anthropic"
          { inputTokens := 200, outputTokens := 100, totalTokens := 300 }).costTracker "anthropic"
      = some { tokens := (150 : Int) + 300,
               cost := ProviderManager.calculateCost "anthropic"
                         { inputTokens := 100, outputTokens := 50, totalTokens := 150 }
                       + ProviderManager.calculateCost "anthropic"
                         { inputTokens := 200, outputTokens := 100, totalTokens := 300 } } :=
  ⟨rfl, (cost_accumulation pmTrackingEx "anthropic"
      { inputTokens := 100, outputTokens := 50, totalTokens := 150 }
      { inputTokens := 200, outputTokens := 100, totalTokens := 300 } rfl rfl).1⟩

/-- A concrete registered openai provider for the ProviderManager examples. -/
def openaiProviderEx : PMProvider :=
  { name := "openai", models := ["gpt-4", "gpt-4-turbo"],
    behavior := fun _ => .ok { usage := { inputTokens := 1, outputTokens := 1, totalTokens := 2 } } }

/-- A manager whose configured default provider name (`mistral`) is not
registered while `openai` is. -/
def pmSubstitutionEx : ProviderManager :=
  { config := { routing := { strategy := "default", rules := [],
                             fallback := { enabled := true, order := [] } },
                monitoring := none },
    providers := [("openai", openaiProviderEx)], costTracker := [],
    envDefaultProvider := some "mistral" }

/-- C3 counterexample: with default-provider name `mistral` unregistered,
`ProviderManager.getDefaultProvider` silently substitutes the first
registered provider (`openai`) instead of failing with a not-found error —
falsifying "never silently substitutes" for the default-provider path. -/
theorem default_provider_substitution_counterexample :
    slookup pmSubstitutionEx.providers "mistral" = none ∧
    jsOrDefault pmSubstitutionEx.envDefaultProvider "anthropic" = "mistral" ∧
    pmSubstitutionEx.getDefaultProvider = some openaiProviderEx :=
  ⟨rfl, rfl, rfl⟩

/-- C3 (amended): in `UniversalProvider`, an unregistered requested or
default provider name fails fast with `Provider ... not found` before any
adapter is invoked (empty invocation trace) and without triggering fallback;
but `ProviderManager.getDefaultProvider` silently substitutes the first
registered provider when the default name is unregistered. -/
theorem unregistered_provider_failfast_amended :
    (∀ (up : UniversalProvider) (request : CompletionRequest)
       (options : CompleteOptions) (n : String),
      resolveProviderName up options = some n →
      slookup up.providers n = none →
      up.complete request options = ([], .error (.providerNotFound n))) ∧
    (∀ (up : UniversalProvider) (request : CompletionRequest)
       (options : CompleteOptions),
      resolveProviderName up options = none →
      up.complete request options = ([], .error (.providerNotFound "null"))) ∧
    (∀ pm : ProviderManager,
      slookup pm.providers (jsOrDefault pm.envDefaultProvider "anthropic") = none →
      pm.getDefaultProvider = pm.providers.head?.map Prod.snd) := by
  refine ⟨?_, ?_, ?_⟩
  · intro up request options n hres hl
    unfold UniversalProvider.complete
    simp only [hres, hl]
  · intro up request options hres
    unfold UniversalProvider.complete
    simp only [hres]
  · intro pm hl
    unfold ProviderManager.getDefaultProvider
    simp only [hl]

/-- A UniversalProvider with an empty registry and a dangling default name. -/
def upEmptyEx : UniversalProvider :=
  { providers := [], defaultProvider := some "mistral" }

/-- The one-user-turn request used by the UniversalProvider witnesses. -/
def requestHello : CompletionRequest :=
  { messages := [{ role := "user", content := "Hello" }] }

/-- C3 witness: requesting the unregistered default `mistral` fails fast with
the not-found error and an empty invocation trace, while the ProviderManager
default-provider path substitutes its first registered provider. -/
theorem unregistered_provider_failfast_amended_witness :
    upEmptyEx.complete requestHello {} = ([], .error (.providerNotFound "mistral")) ∧
    pmSubstitutionEx.getDefaultProvider = pmSubstitutionEx.providers.head?.map Prod.snd :=
  ⟨unregistered_provider_failfast_amended.1 upEmptyEx requestHello {} "mistral" rfl rfl,
   unregistered_provider_failfast_amended.2.2 pmSubstitutionEx rfl⟩

/-- C7: when call-time options explicitly name a registered provider, the
selection is exactly that provider and it is the first adapter invoked by
`complete`, for every request metadata (e.g. `complexity: 'complex'`) and
every configured strategy — routing rules are bypassed entirely. -/
theorem explicit_provider_override (pm : ProviderManager) (request : PMRequest)
    (options : PMOptions) (x : String) (p : PMProvider)
    (hopt : options.provider = some x) (hx : x ≠ "")
    (hl : slookup pm.providers x = some p) :
    pm.selectProvider request options = .ok (some p) ∧
    (pm.completePM request options).1.head? = some p := by
  have htruthy : strOptTruthy options.provider = true := by
    rw [hopt]
    simp [strOptTruthy, hx]
  have hsel : pm.selectProvider request options = .ok (some p) := by
    unfold ProviderManager.selectProvider
    rw [if_pos htruthy, hopt]
    show Except.ok (slookup pm.providers x) = Except.ok (some p)
    rw [hl]
  refine ⟨hsel, ?_⟩
  unfold ProviderManager.completePM
  rw [hsel]
  rcases hb : p.behavior request with err | res
  · simp only [hb]
    by_cases hfb : pm.config.routing.fallback.enabled = true
    · rw [if_pos hfb]
      rfl
    · rw [if_neg hfb]
      rfl
  · simp only [hb]
    rfl

/-- The anthropic provider the C7 witness registers alongside openai. -/
def anthropicProviderEx : PMProvider :=
  { name := "anthropic", models := ["claude-opus-4", "claude-sonnet-4"],
    behavior := fun _ => .ok { usage := { inputTokens := 1, outputTokens := 1, totalTokens := 2 } } }

/-- A manager with a `complex-reasoning` rule pointing at anthropic and a
quality-optimized strategy — both of which explicit override must beat. -/
def pmRoutingEx : ProviderManager :=
  { config := { routing := { strategy := "quality-optimized",
                             rules := [("complex-reasoning", "anthropic/claude-opus-4")],
                             fallback := { enabled := true, order := [] } },
                monitoring := none },
    providers := [("anthropic", anthropicProviderEx), ("openai", openaiProviderEx)],
    costTracker := [] }

/-- C7 witness: with `metadata.complexity = 'complex'`, a `complex-reasoning`
rule resolving to anthropic and a quality-optimized strategy, explicitly
requesting `openai` selects and invokes the openai adapter. -/
theorem explicit_provider_override_witness :
    pmRoutingEx.selectProvider
        { metadata := some { complexity := some "complex" } } { provider := some "openai" }
      = .ok (some openaiProviderEx) ∧
    (pmRoutingEx.completePM
        { metadata := some { complexity := some "complex" } } { provider := some "openai" }).1.head?
      = some openaiProviderEx :=
  explicit_provider_override pmRoutingEx
    { metadata := some { complexity := some "complex" } } { provider := some "openai" }
    "openai" openaiProviderEx rfl (by decide) rfl

/-- C2: with fallback enabled, when the resolved primary provider's guarded
attempt fails, the invocation trace starts at the primary, the downstream
(fallback) attempts form a sublist of the registered names other than the
failed primary — so unregistered names are never attempted, the failed
provider is not retried, no provider is attempted more than once, and a
fallback list of length N yields at most N downstream attempts — and if
every registered provider's attempt fails, every candidate is attempted
exactly once, in order, and the terminal `All providers failed` error is
raised rather than any partial response. -/
theorem complete_fallback_bound (up : UniversalProvider) (request : CompletionRequest)
    (options : CompleteOptions) (n : String) (adapter : Adapter) (e : JsError)
    (hnodup : (up.providers.map Prod.fst).Nodup)
    (hnames : ∀ k ∈ up.providers.map Prod.fst, k ≠ "")
    (hfb : options.enableFallback ≠ some false)
    (hres : resolveProviderName up options = some n)
    (hl : slookup up.providers n = some adapter)
    (hrun : runAdapter adapter request = .error e) :
    (up.complete request options).1.head? = some n ∧
    (up.complete request options).1.tail.Sublist
      ((up.providers.map Prod.fst).filter (fun p => p ≠ n)) ∧
    (up.complete request options).1.Nodup ∧
    (up.complete request options).1.tail.length ≤
      ((up.providers.map Prod.fst).filter (fun p => p ≠ n)).length ∧
    ((∀ q ∈ up.providers, ∃ e2, runAdapter q.2 request = .error e2) →
      (up.complete request options).1
          = n :: (up.providers.map Prod.fst).filter (fun p => p ≠ n) ∧
      (up.complete request options).2 = .error .allProvidersFailed) := by
  have hcomp : up.complete request options
      = (n :: (up.tryFallback request n options).1, (up.tryFallback request n options).2) := by
    unfold UniversalProvider.complete
    simp only [hres, hl, hrun]
    rw [if_neg hfb]
  have hLnames : ∀ k ∈ (up.providers.map Prod.fst).filter (fun p => p ≠ n), k ≠ "" :=
    fun k hk => hnames k (List.mem_of_mem_filter hk)
  have hsub : (up.tryFallback request n options).1.Sublist
      ((up.providers.map Prod.fst).filter (fun p => p ≠ n)) :=
    tryFallbackGo_trace_sublist up request options _ hLnames
  have hnotmem : n ∉ (up.tryFallback request n options).1 := by
    intro hmem
    have hmemf := hsub.subset hmem
    have := List.of_mem_filter hmemf
    simp at this
  refine ⟨?_, ?_, ?_, ?_, ?_⟩
  · rw [hcomp]
    rfl
  · rw [hcomp]
    exact hsub
  · rw [hcomp]
    exact List.nodup_cons.mpr ⟨hnotmem, hsub.nodup (hnodup.filter _)⟩
  · rw [hcomp]
    exact hsub.length_le
  · intro hall
    have hfail : ∀ k ∈ (up.providers.map Prod.fst).filter (fun p => p ≠ n),
        k ≠ "" ∧ ∃ a2, slookup up.providers k = some a2 ∧
          ∃ e2, runAdapter a2 request = .error e2 := by
      intro k hk
      refine ⟨hLnames k hk, ?_⟩
      obtain ⟨a2, ha2⟩ := slookup_isSome_of_mem (List.mem_of_mem_filter hk)
      exact ⟨a2, ha2, hall (k, a2) (mem_of_slookup ha2)⟩
    have htf : up.tryFallback request n options
        = ((up.providers.map Prod.fst).filter (fun p => p ≠ n),
           .error .allProvidersFailed) :=
      tryFallbackGo_all_fail up request options _ hfail
    rw [hcomp, htf]
    exact ⟨rfl, rfl⟩

/-- Three registered adapters that all reject their vendor calls. -/
def failingAnthropicAdapter : Adapter :=
  { name := "anthropic", behavior := fun _ => .error "anthropic down" }

def failingOpenAIAdapter : Adapter :=
  { name := "openai", behavior := fun _ => .error "openai down" }

def failingGoogleAdapter : Adapter :=
  { name := "google", behavior := fun _ => .error "google down" }

/-- A UniversalProvider whose three registered providers all fail. -/
def upAllFailing : UniversalProvider :=
  { providers := [("anthropic", failingAnthropicAdapter),
                  ("openai", failingOpenAIAdapter),
                  ("google", failingGoogleAdapter)],
    defaultProvider := some "anthropic" }

/-- C2 witness: with three registered all-failing providers and default
options, the call attempts the primary and then each of the two fallback
candidates exactly once, in order, and raises `All providers failed`. -/
theorem complete_fallback_bound_witness :
    (upAllFailing.complete requestHello {}).1.head? = some "anthropic" ∧
    (upAllFailing.complete requestHello {}).1 = ["anthropic", "openai", "google"] ∧
    (upAllFailing.complete requestHello {}).2 = .error .allProvidersFailed := by
  have h := complete_fallback_bound upAllFailing requestHello {} "anthropic"
    failingAnthropicAdapter (.vendorFailure "anthropic down")
    (by decide) (by decide) (by decide) rfl rfl rfl
  have hall : ∀ q ∈ upAllFailing.providers, ∃ e2, runAdapter q.2 requestHello = .error e2 := by
    intro q hq
    simp only [upAllFailing, List.mem_cons, List.not_mem_nil, or_false] at hq
    rcases hq with rfl | rfl | rfl
    · exact ⟨.vendorFailure "anthropic down", rfl⟩
    · exact ⟨.vendorFailure "openai down", rfl⟩
    · exact ⟨.vendorFailure "google down", rfl⟩
  obtain ⟨hhead, _, _, _, hterm⟩ := h
  obtain ⟨htrace, herr⟩ := hterm hall
  refine ⟨hhead, ?_, herr⟩
  rw [htrace]
  rfl

end Agi
